import Mathlib

/-!
Verification of the installer step engine (gui/src/installer/step/mod.rs):
the node-connection step (DefineBitcoind) and the finalization step (Final),
embedded shallowly. Rust mutation is modelled by explicit state passing:
a method taking &mut self and &mut Context becomes a function returning the
new step state, the new context and the boolean result. Paths are modelled
as strings with "/" as the platform separator; the ambient platform
directory lookup (dirs::home_dir / dirs::config_dir) and the target OS are
explicit parameters.
-/

/-- Network enum (bitcoin::Network) as matched by this file. -/
inductive Network
  | bitcoin
  | testnet
  | regtest
  | signet
deriving DecidableEq

/-- liana_ui form::Value of String: a text field value paired with its
validity flag. -/
structure FormValue where
  value : String
  valid : Bool
deriving DecidableEq

/-- A parsed socket address (std::net::SocketAddr, IPv4 form): the four
octets and the port. -/
structure SocketAddr where
  ip : List Nat
  port : Nat
deriving DecidableEq

/-- One group of characters between separators, as splitting a string on a
separator character produces. -/
def splitOnChar (sep : Char) : List Char → List (List Char)
  | [] => [[]]
  | c :: rest =>
      let r := splitOnChar sep rest
      if c = sep then [] :: r
      else
        match r with
        | g :: gs => (c :: g) :: gs
        | [] => [[c]]

/-- Value of a nonempty all-digit character group, none otherwise. -/
def decimalValue? (cs : List Char) : Option Nat :=
  if cs.isEmpty then none
  else if cs.all Char.isDigit then
    some (cs.foldl (fun acc c => acc * 10 + (c.toNat - 48)) 0)
  else none

/-- One IPv4 octet as std net parsing reads it: at most three digits, no
leading zero except the single digit zero, value at most 255. -/
def parseOctet (cs : List Char) : Option Nat :=
  match decimalValue? cs with
  | some n =>
      if cs.length ≤ 3 ∧ (cs.head? = some (Char.ofNat 48) → cs = [Char.ofNat 48]) ∧ n ≤ 255
      then some n else none
  | none => none

/-- The four octets of an IPv4 address in dotted form (Ipv4Addr parsing):
exactly four groups, each a valid octet. -/
def ipv4FromChars (cs : List Char) : Option (List Nat) :=
  match (splitOnChar (Char.ofNat 46) cs).mapM parseOctet with
  | some parts => if parts.length = 4 then some parts else none
  | none => none

/-- The port as std net parsing reads it: at most five digits, value fits
sixteen bits. -/
def parsePort (cs : List Char) : Option Nat :=
  match decimalValue? cs with
  | some n => if cs.length ≤ 5 ∧ n ≤ 65535 then some n else none
  | none => none

/-- Model of std::net::SocketAddr::from_str restricted to the IPv4 form
host:port; IPv6 bracket forms are modelled as unparsable (no claim in this
development depends on them). The error value of AddrParseError carries no
data used by the code. -/
def socketAddrFromStr (s : String) : Except Unit SocketAddr :=
  match splitOnChar (Char.ofNat 58) s.toList with
  | [host, port] =>
      match ipv4FromChars host, parsePort port with
      | some ip, some p => Except.ok (SocketAddr.mk ip p)
      | _, _ => Except.error ()
  | _ => Except.error ()

/-- std PathBuf::from_str: infallible (its Err type is Infallible, modelled
by Empty), the parsed path is the input string. -/
def pathBufFromStr (s : String) : Except Empty String := Except.ok s

/-- liana config BitcoindConfig: the record apply commits into the
context. -/
structure BitcoindConfig where
  cookie_path : String
  addr : SocketAddr
deriving DecidableEq

/-- The bitcoin_config part of the context read by load_context. -/
structure BitcoinConfig where
  network : Network
deriving DecidableEq

/-- A recovered hot signer; only its fingerprint (rendered as a string, as
Fingerprint.to_string produces) is read by this file. -/
structure Signer where
  fingerprint : String
deriving DecidableEq

/-- The installer Context as read and written by the steps in this file:
the selected network, the optional committed bitcoind connection config,
the optional serialized descriptor (its to_string form) and the optional
recovered signer. -/
structure Context where
  bitcoin_config : BitcoinConfig
  bitcoind_config : Option BitcoindConfig
  descriptor : Option String
  recovered_signer : Option Signer
deriving DecidableEq

/-- The commands the modelled steps emit: the empty command, or the
asynchronous bitcoind probe capturing the current cookie path and
address. -/
inductive Cmd
  | none
  | ping (cookie_path : String) (address : String)
deriving DecidableEq

/-- message::DefineBitcoind. -/
inductive DefineBitcoindMsg
  | PingBitcoind
  | PingBitcoindResult (res : Except String Unit)
  | AddressEdited (address : String)
  | CookiePathEdited (path : String)

/-- The messages dispatched to the steps modelled here; variants not read
by them are collapsed into Other. -/
inductive Message
  | DefineBitcoind (msg : DefineBitcoindMsg)
  | Other

/-- The DefineBitcoind step state: the two form fields and the stored
probe outcome (None when no probe result is shown). -/
structure DefineBitcoind where
  cookie_path : FormValue
  address : FormValue
  is_running : Option (Except String Unit)

/-- bitcoind_default_cookie_path: from the platform directory (home_dir on
linux, config_dir elsewhere; None when the lookup fails), push the bitcoin
folder then the per-network cookie suffix. -/
def bitcoind_default_cookie_path (configsDir : Option String) (onLinux : Bool)
    (network : Network) : Option String :=
  match configsDir with
  | some dir =>
      let base := dir ++ "/" ++ (if onLinux then ".bitcoin" else "Bitcoin")
      some (base ++ "/" ++
        match network with
        | Network.bitcoin => ".cookie"
        | Network.testnet => "testnet3/.cookie"
        | Network.regtest => "regtest/.cookie"
        | Network.signet => "signet/.cookie")
  | none => none

/-- bitcoind_default_address: the fixed network to host:port table. -/
def bitcoind_default_address (network : Network) : String :=
  match network with
  | Network.bitcoin => "127.0.0.1:8332"
  | Network.testnet => "127.0.0.1:18332"
  | Network.regtest => "127.0.0.1:18443"
  | Network.signet => "127.0.0.1:38332"

/-- DefineBitcoind load_context: each empty field is filled with its
network-specific default (the cookie path default falling back to the
empty string when the platform directory lookup fails). -/
def DefineBitcoind.load_context (configsDir : Option String) (onLinux : Bool)
    (s : DefineBitcoind) (ctx : Context) : DefineBitcoind :=
  let s :=
    if s.cookie_path.value = "" then
      { s with cookie_path := { s.cookie_path with
          value := (bitcoind_default_cookie_path configsDir onLinux
            ctx.bitcoin_config.network).getD "" } }
    else s
  if s.address.value = "" then
    { s with address := { s.address with
        value := bitcoind_default_address ctx.bitcoin_config.network } }
  else s

/-- DefineBitcoind update: the four DefineBitcoind message variants; any
other message is ignored. -/
def DefineBitcoind.update (s : DefineBitcoind) (m : Message) :
    DefineBitcoind × Cmd :=
  match m with
  | Message.DefineBitcoind msg =>
      match msg with
      | DefineBitcoindMsg.PingBitcoind =>
          ({ s with is_running := none },
           Cmd.ping s.cookie_path.value s.address.value)
      | DefineBitcoindMsg.PingBitcoindResult res =>
          ({ s with is_running := some res }, Cmd.none)
      | DefineBitcoindMsg.AddressEdited a =>
          ({ s with is_running := none,
                    address := { value := a, valid := true } }, Cmd.none)
      | DefineBitcoindMsg.CookiePathEdited p =>
          ({ s with is_running := none,
                    cookie_path := { s.cookie_path with value := p },
                    address := { s.address with valid := true } }, Cmd.none)
  | Message.Other => (s, Cmd.none)

/-- DefineBitcoind apply: parse both fields; on failure mark the failing
field(s) invalid and return false leaving the context untouched; on
success commit the BitcoindConfig record and return true. The four match
arms follow the source order. -/
def DefineBitcoind.apply (s : DefineBitcoind) (ctx : Context) :
    DefineBitcoind × Context × Bool :=
  match pathBufFromStr s.cookie_path.value, socketAddrFromStr s.address.value with
  | Except.error _, Except.ok _ =>
      ({ s with cookie_path := { s.cookie_path with valid := false } }, ctx, false)
  | Except.ok _, Except.error _ =>
      ({ s with address := { s.address with valid := false } }, ctx, false)
  | Except.error _, Except.error _ =>
      ({ s with cookie_path := { s.cookie_path with valid := false },
                address := { s.address with valid := false } }, ctx, false)
  | Except.ok path, Except.ok addr =>
      (s, { ctx with bitcoind_config := some (BitcoindConfig.mk path addr) }, true)

/-- The Step trait default apply: no mutation, returns true. The steps of
this file that do not override apply (Welcome, Final) use it. -/
def Step.default_apply (ctx : Context) : Context × Bool := (ctx, true)

/-- Whether pat occurs as a contiguous substring, as Rust str contains
computes it. -/
def containsSub (pat : List Char) : List Char → Bool
  | [] => pat.isEmpty
  | c :: rest => pat.isPrefixOf (c :: rest) || containsSub pat rest

/-- Rust str contains on strings. -/
def rustContains (s pat : String) : Bool := containsSub pat.toList s.toList

/-- The Final step state. config_path is the written path rendered as a
string. -/
structure Final where
  generating : Bool
  context : Option Context
  warning : Option String
  config_path : Option String
  hot_signer_fingerprint : String
  hot_signer_is_not_used : Bool
deriving DecidableEq

/-- Final new. -/
def Final.new (fp : String) : Final :=
  { context := none
    generating := false
    warning := none
    config_path := none
    hot_signer_fingerprint := fp
    hot_signer_is_not_used := false }

/-- Final load_context: snapshot the context; with a recovered signer take
its fingerprint and clear the unused flag; otherwise unwrap the descriptor
(none models the panic of the unwrap) and set the unused flag exactly when
the fingerprint string does not occur in the serialized descriptor. -/
def Final.load_context (f : Final) (ctx : Context) : Option Final :=
  let f := { f with context := some ctx }
  match ctx.recovered_signer with
  | some signer =>
      some { f with hot_signer_fingerprint := signer.fingerprint,
                    hot_signer_is_not_used := false }
  | none =>
      match ctx.descriptor with
      | none => none
      | some desc =>
          if rustContains desc f.hot_signer_fingerprint then
            some { f with hot_signer_is_not_used := false }
          else
            some { f with hot_signer_is_not_used := true }

/-- Sample context: testnet, nothing committed yet. -/
def ctxSample : Context :=
  { bitcoin_config := { network := Network.testnet }
    bitcoind_config := none
    descriptor := none
    recovered_signer := none }

/-- Sample step state whose address does not parse. -/
def sBadAddr : DefineBitcoind :=
  { cookie_path := { value := "/home/user/.bitcoin/.cookie", valid := true }
    address := { value := "127.0.0.1:notaport", valid := true }
    is_running := none }

/-- Sample step state with both fields parseable and a failed probe
stored. -/
def sGoodProbeFailed : DefineBitcoind :=
  { cookie_path := { value := "/home/user/.bitcoin/.cookie", valid := true }
    address := { value := "127.0.0.1:8332", valid := true }
    is_running := some (Except.error "ping failed") }

/-- Sample step state with both fields empty. -/
def sEmpty : DefineBitcoind :=
  { cookie_path := { value := "", valid := true }
    address := { value := "", valid := true }
    is_running := none }

/-- The parse of 127.0.0.1:8332. -/
def addrSample : SocketAddr := SocketAddr.mk [127, 0, 0, 1] 8332

/-- Claim C1: whenever apply returns false the Context is unchanged; on a
parse failure (only the address can fail) the corresponding field is
marked invalid, false is returned and nothing is written; every other
step in this file uses the default apply, which never returns false and
never mutates the Context. -/
theorem apply_false_leaves_context_unchanged :
    (∀ (s : DefineBitcoind) (ctx : Context),
      (DefineBitcoind.apply s ctx).2.2 = false →
      (DefineBitcoind.apply s ctx).2.1 = ctx) ∧
    (∀ (s : DefineBitcoind) (ctx : Context),
      socketAddrFromStr s.address.value = Except.error () →
      (DefineBitcoind.apply s ctx).2.2 = false ∧
      (DefineBitcoind.apply s ctx).1.address.valid = false ∧
      (DefineBitcoind.apply s ctx).2.1 = ctx) ∧
    (∀ ctx : Context, Step.default_apply ctx = (ctx, true)) := by
  refine ⟨?_, ?_, fun ctx => rfl⟩
  · intro s ctx h
    cases ha : socketAddrFromStr s.address.value with
    | error e => simp [DefineBitcoind.apply, pathBufFromStr, ha]
    | ok a => simp [DefineBitcoind.apply, pathBufFromStr, ha] at h
  · intro s ctx ha
    simp [DefineBitcoind.apply, pathBufFromStr, ha]

/-- Witness for C1 at a concrete unparseable address. -/
theorem apply_false_leaves_context_unchanged_witness :
    (DefineBitcoind.apply sBadAddr ctxSample).2.2 = false ∧
    (DefineBitcoind.apply sBadAddr ctxSample).1.address.valid = false ∧
    (DefineBitcoind.apply sBadAddr ctxSample).2.1 = ctxSample :=
  apply_false_leaves_context_unchanged.2.1 sBadAddr ctxSample rfl

/-- Claim C2: when both fields parse, apply commits the BitcoindConfig
record built from them into the Context and returns true, whatever the
stored probe outcome is. -/
theorem apply_ok_commits_config :
    ∀ (s : DefineBitcoind) (ctx : Context) (p : String) (a : SocketAddr),
      pathBufFromStr s.cookie_path.value = Except.ok p →
      socketAddrFromStr s.address.value = Except.ok a →
      DefineBitcoind.apply s ctx =
        (s, { ctx with bitcoind_config := some (BitcoindConfig.mk p a) }, true) ∧
      (∀ r, DefineBitcoind.apply { s with is_running := r } ctx =
        ({ s with is_running := r },
         { ctx with bitcoind_config := some (BitcoindConfig.mk p a) }, true)) := by
  intro s ctx p a hp ha
  have hps : s.cookie_path.value = p := by
    simpa [pathBufFromStr] using hp
  subst hps
  constructor
  · simp [DefineBitcoind.apply, pathBufFromStr, ha]
  · intro r
    simp [DefineBitcoind.apply, pathBufFromStr, ha]

/-- Witness for C2: both fields parse while the stored probe outcome is a
failure, and apply still commits and returns true. -/
theorem apply_ok_commits_config_witness :
    DefineBitcoind.apply sGoodProbeFailed ctxSample =
      (sGoodProbeFailed,
       { ctxSample with
           bitcoind_config :=
             some (BitcoindConfig.mk "/home/user/.bitcoin/.cookie" addrSample) },
       true) :=
  (apply_ok_commits_config sGoodProbeFailed ctxSample
    "/home/user/.bitcoin/.cookie" addrSample rfl rfl).1

/-- Claim C3: on testnet with both fields empty, load_context fills the
address with 127.0.0.1:18332 and the cookie path with the testnet cookie
path convention (platform bitcoin folder, then testnet3/.cookie), and the
default address table is the fixed network to host:port map. -/
theorem load_context_defaults :
    (∀ (configsDir : Option String) (onLinux : Bool) (s : DefineBitcoind)
        (ctx : Context),
      ctx.bitcoin_config.network = Network.testnet →
      s.cookie_path.value = "" →
      s.address.value = "" →
      (DefineBitcoind.load_context configsDir onLinux s ctx).address.value =
          "127.0.0.1:18332" ∧
      (DefineBitcoind.load_context configsDir onLinux s ctx).cookie_path.value =
          (bitcoind_default_cookie_path configsDir onLinux Network.testnet).getD "" ∧
      (∀ d, configsDir = some d →
        (DefineBitcoind.load_context configsDir onLinux s ctx).cookie_path.value =
          d ++ "/" ++ (if onLinux then ".bitcoin" else "Bitcoin") ++
            "/" ++ "testnet3/.cookie")) ∧
    (bitcoind_default_address Network.bitcoin = "127.0.0.1:8332" ∧
     bitcoind_default_address Network.testnet = "127.0.0.1:18332" ∧
     bitcoind_default_address Network.regtest = "127.0.0.1:18443" ∧
     bitcoind_default_address Network.signet = "127.0.0.1:38332") := by
  refine ⟨?_, rfl, rfl, rfl, rfl⟩
  intro configsDir onLinux s ctx hnet hc ha
  refine ⟨?_, ?_, ?_⟩
  · simp [DefineBitcoind.load_context, hnet, hc, ha, bitcoind_default_address]
  · simp [DefineBitcoind.load_context, hnet, hc, ha]
  · intro d hd
    subst hd
    simp [DefineBitcoind.load_context, hnet, hc, ha, bitcoind_default_cookie_path]

/-- Witness for C3 on a concrete platform directory. -/
theorem load_context_defaults_witness :
    (DefineBitcoind.load_context (some "/home/user") true sEmpty ctxSample).address.value =
        "127.0.0.1:18332" ∧
    (DefineBitcoind.load_context (some "/home/user") true sEmpty ctxSample).cookie_path.value =
        (bitcoind_default_cookie_path (some "/home/user") true Network.testnet).getD "" ∧
    (∀ d, (some "/home/user" : Option String) = some d →
      (DefineBitcoind.load_context (some "/home/user") true sEmpty ctxSample).cookie_path.value =
        d ++ "/" ++ (if true then ".bitcoin" else "Bitcoin") ++ "/" ++ "testnet3/.cookie") :=
  load_context_defaults.1 (some "/home/user") true sEmpty ctxSample rfl rfl rfl

/-- Claim C4: load_context never overwrites a non-empty field. -/
theorem load_context_preserves_nonempty :
    ∀ (configsDir : Option String) (onLinux : Bool) (s : DefineBitcoind)
        (ctx : Context),
      s.cookie_path.value ≠ "" →
      s.address.value ≠ "" →
      DefineBitcoind.load_context configsDir onLinux s ctx = s := by
  intro configsDir onLinux s ctx hc ha
  simp [DefineBitcoind.load_context, hc, ha]

/-- Witness for C4 at a concrete state with both fields filled. -/
theorem load_context_preserves_nonempty_witness :
    DefineBitcoind.load_context none false sGoodProbeFailed ctxSample =
      sGoodProbeFailed :=
  load_context_preserves_nonempty none false sGoodProbeFailed ctxSample
    (by decide) (by decide)

/-- Claim C5: editing either field clears the stored probe outcome, and a
probe request clears it before emitting the new probe command. -/
theorem update_clears_probe_outcome :
    ∀ (s : DefineBitcoind) (a p : String),
      (DefineBitcoind.update s
        (Message.DefineBitcoind (DefineBitcoindMsg.AddressEdited a))).1.is_running
          = none ∧
      (DefineBitcoind.update s
        (Message.DefineBitcoind (DefineBitcoindMsg.CookiePathEdited p))).1.is_running
          = none ∧
      (DefineBitcoind.update s
        (Message.DefineBitcoind DefineBitcoindMsg.PingBitcoind)).1.is_running
          = none ∧
      (DefineBitcoind.update s
        (Message.DefineBitcoind DefineBitcoindMsg.PingBitcoind)).2
          = Cmd.ping s.cookie_path.value s.address.value := by
  intro s a p
  exact ⟨rfl, rfl, rfl, rfl⟩

/-- Context with a recovered signer present. -/
def ctxSigner : Context :=
  { bitcoin_config := { network := Network.testnet }
    bitcoind_config := none
    descriptor := none
    recovered_signer := some (Signer.mk "f00dbabe") }

/-- Context with a committed descriptor and no recovered signer; the
descriptor does not mention the fingerprint of finSample. -/
def ctxDesc : Context :=
  { bitcoin_config := { network := Network.testnet }
    bitcoind_config := none
    descriptor := some "wsh(pk(abcdef01))"
    recovered_signer := none }

/-- A Final step as built with a locally generated fingerprint. -/
def finSample : Final := Final.new "deadbeef"

/-- Claim C6: with a recovered signer, Final load_context displays that
fingerprint and suppresses the unused-key warning; without one, the
fingerprint is kept and the unused flag is true exactly when the
fingerprint string does not occur in the serialized descriptor. -/
theorem final_load_context_signer_display :
    (∀ (f : Final) (ctx : Context) (signer : Signer),
      ctx.recovered_signer = some signer →
      ∃ f2, Final.load_context f ctx = some f2 ∧
        f2.hot_signer_fingerprint = signer.fingerprint ∧
        f2.hot_signer_is_not_used = false ∧
        f2.context = some ctx) ∧
    (∀ (f : Final) (ctx : Context) (desc : String),
      ctx.recovered_signer = none →
      ctx.descriptor = some desc →
      ∃ f2, Final.load_context f ctx = some f2 ∧
        f2.hot_signer_fingerprint = f.hot_signer_fingerprint ∧
        f2.hot_signer_is_not_used =
          !(rustContains desc f.hot_signer_fingerprint)) := by
  constructor
  · intro f ctx signer hs
    refine ⟨{ f with
                context := some ctx,
                hot_signer_fingerprint := signer.fingerprint,
                hot_signer_is_not_used := false }, ?_, rfl, rfl, rfl⟩
    simp [Final.load_context, hs]
  · intro f ctx desc hs hd
    cases hcont : rustContains desc f.hot_signer_fingerprint with
    | false =>
        refine ⟨{ f with
                    context := some ctx,
                    hot_signer_is_not_used := true }, ?_, rfl, by simp [hcont]⟩
        simp [Final.load_context, hs, hd, hcont]
    | true =>
        refine ⟨{ f with
                    context := some ctx,
                    hot_signer_is_not_used := false }, ?_, rfl, by simp [hcont]⟩
        simp [Final.load_context, hs, hd, hcont]

/-- Witness for C6: a recovered signer overrides the generated
fingerprint, and absent one a descriptor not mentioning the fingerprint
sets the unused flag. -/
theorem final_load_context_signer_display_witness :
    (∃ f2, Final.load_context finSample ctxSigner = some f2 ∧
      f2.hot_signer_fingerprint = (Signer.mk "f00dbabe").fingerprint ∧
      f2.hot_signer_is_not_used = false ∧
      f2.context = some ctxSigner) ∧
    (∃ f2, Final.load_context finSample ctxDesc = some f2 ∧
      f2.hot_signer_fingerprint = finSample.hot_signer_fingerprint ∧
      f2.hot_signer_is_not_used =
        !(rustContains "wsh(pk(abcdef01))" finSample.hot_signer_fingerprint)) :=
  ⟨final_load_context_signer_display.1 finSample ctxSigner
      (Signer.mk "f00dbabe") rfl,
   final_load_context_signer_display.2 finSample ctxDesc
      "wsh(pk(abcdef01))" rfl rfl⟩

/-- Claim C7: when the descriptor is populated or a recovered signer is
present, Final load_context completes (no panic) and snapshots the whole
Context; with neither present the unwrap of the descriptor panics (the
none result). -/
theorem final_load_context_panic_free :
    (∀ (f : Final) (ctx : Context),
      ctx.descriptor.isSome = true ∨ ctx.recovered_signer.isSome = true →
      ∃ f2, Final.load_context f ctx = some f2 ∧ f2.context = some ctx) ∧
    (∀ (f : Final) (ctx : Context),
      ctx.descriptor = none →
      ctx.recovered_signer = none →
      Final.load_context f ctx = none) := by
  constructor
  · intro f ctx h
    cases hs : ctx.recovered_signer with
    | some signer =>
        exact ⟨{ f with
                   context := some ctx,
                   hot_signer_fingerprint := signer.fingerprint,
                   hot_signer_is_not_used := false },
               by simp [Final.load_context, hs], rfl⟩
    | none =>
        cases hd : ctx.descriptor with
        | none =>
            exfalso
            rcases h with h | h
            · rw [hd] at h
              simp at h
            · rw [hs] at h
              simp at h
        | some desc =>
            cases hcont : rustContains desc f.hot_signer_fingerprint with
            | false =>
                exact ⟨{ f with
                           context := some ctx,
                           hot_signer_is_not_used := true },
                       by simp [Final.load_context, hs, hd, hcont], rfl⟩
            | true =>
                exact ⟨{ f with
                           context := some ctx,
                           hot_signer_is_not_used := false },
                       by simp [Final.load_context, hs, hd, hcont], rfl⟩
  · intro f ctx hd hs
    simp [Final.load_context, hs, hd]

/-- Witness for C7 at a context holding a committed descriptor. -/
theorem final_load_context_panic_free_witness :
    ∃ f2, Final.load_context finSample ctxDesc = some f2 ∧
      f2.context = some ctxDesc :=
  final_load_context_panic_free.1 finSample ctxDesc (Or.inl rfl)

/-- Counterexample for C8: no cookie-path string fails to parse as a
filesystem path, because the Err type of PathBuf parsing (Infallible,
modelled by Empty) is uninhabited; the scenario of a failing cookie-path
parse therefore has no instance. -/
theorem cookie_path_never_fails_cex :
    ¬ ∃ (s : DefineBitcoind) (_ctx : Context) (e : Empty),
        pathBufFromStr s.cookie_path.value = Except.error e := by
  rintro ⟨s, _ctx, e, h⟩
  exact e.elim

/-- Claim C8 (amended): parsing the cookie path always succeeds, so for
any cookie-path contents, including an OS-hostile string, apply with a
parseable address returns true and leaves both fields (value and
validity) untouched; the only-path-invalid branch is unreachable. -/
theorem cookie_path_parse_infallible :
    (∀ v : String, pathBufFromStr v = Except.ok v) ∧
    (∀ (s : DefineBitcoind) (ctx : Context) (a : SocketAddr),
      socketAddrFromStr s.address.value = Except.ok a →
      (DefineBitcoind.apply s ctx).2.2 = true ∧
      (DefineBitcoind.apply s ctx).1.cookie_path = s.cookie_path ∧
      (DefineBitcoind.apply s ctx).1.address = s.address) := by
  refine ⟨fun v => rfl, ?_⟩
  intro s ctx a ha
  simp [DefineBitcoind.apply, pathBufFromStr, ha]

/-- The cookie path of the spec scenario, an OS-hostile string. -/
def sWeirdPath : DefineBitcoind :=
  { cookie_path := { value := "not/a/valid/::path", valid := true }
    address := { value := "127.0.0.1:8332", valid := true }
    is_running := none }

/-- Witness for C8 (amended) at the spec scenario input. -/
theorem cookie_path_parse_infallible_witness :
    (DefineBitcoind.apply sWeirdPath ctxSample).2.2 = true ∧
    (DefineBitcoind.apply sWeirdPath ctxSample).1.cookie_path =
      sWeirdPath.cookie_path ∧
    (DefineBitcoind.apply sWeirdPath ctxSample).1.address =
      sWeirdPath.address :=
  cookie_path_parse_infallible.2 sWeirdPath ctxSample addrSample rfl

/-- Claim C9: apply returns false exactly when the address fails to parse,
and never changes the validity flag of the cookie-path field (the two
branches marking it invalid are unreachable). -/
theorem apply_false_iff_address_invalid :
    ∀ (s : DefineBitcoind) (ctx : Context),
      ((DefineBitcoind.apply s ctx).2.2 = false ↔
        socketAddrFromStr s.address.value = Except.error ()) ∧
      (DefineBitcoind.apply s ctx).1.cookie_path.valid =
        s.cookie_path.valid := by
  intro s ctx
  cases ha : socketAddrFromStr s.address.value with
  | error e =>
      cases e
      exact ⟨by simp [DefineBitcoind.apply, pathBufFromStr, ha],
             by simp [DefineBitcoind.apply, pathBufFromStr, ha]⟩
  | ok a =>
      exact ⟨by simp [DefineBitcoind.apply, pathBufFromStr, ha],
             by simp [DefineBitcoind.apply, pathBufFromStr, ha]⟩

/-- Claim C10: a cookie-path edit sets the address validity flag to true,
leaves the cookie-path validity flag as it was (an invalid mark from
apply survives the edit) and stores the edited value. -/
theorem cookie_path_edit_validity :
    ∀ (s : DefineBitcoind) (p : String),
      (DefineBitcoind.update s
        (Message.DefineBitcoind (DefineBitcoindMsg.CookiePathEdited p))).1.address.valid
          = true ∧
      (DefineBitcoind.update s
        (Message.DefineBitcoind (DefineBitcoindMsg.CookiePathEdited p))).1.cookie_path.valid
          = s.cookie_path.valid ∧
      (DefineBitcoind.update s
        (Message.DefineBitcoind (DefineBitcoindMsg.CookiePathEdited p))).1.cookie_path.value
          = p := by
  intro s p
  exact ⟨rfl, rfl, rfl⟩
